import Mathlib

/-!
Shallow embedding of the GitHub-contribution analytics scripts
`tools/analyze_github.py` and `h1_2025_github_report.py` of this repository.

Conventions used throughout:
- Python strings are Lean `String`; `s.lower()` is `pyLower` (ASCII case map,
  which agrees with CPython on the ASCII vocabularies used by these scripts),
  `needle in hay` on strings is `pyIn`, and `bool(s)` is `pyTruthy`.
- `datetime` values are epoch seconds as `ℤ`; Python `None` is `Option.none`.
- Real-valued arithmetic (`total_seconds()/86400`, `round(x, 2)`, averages) is
  modelled over `ℚ`; `round` ties go to even as in Python.
- Network effects are modelled by passing the responses of the remote endpoint
  as explicit arguments (an oracle); `time.sleep` is modelled by returning the
  slept duration alongside the outcome.
-/

/-- Character-list test: the first list occurs at the head of the second. -/
def startsWithL : List Char → List Char → Bool
  | [], _ => true
  | _ :: _, [] => false
  | n :: ns, h :: hs => (n == h) && startsWithL ns hs

/-- Character-list substring test (needle first). -/
def containsL : List Char → List Char → Bool
  | n, [] => n.isEmpty
  | n, h :: hs => startsWithL n (h :: hs) || containsL n hs

/-- Python `needle in hay` for strings. -/
def pyIn (needle hay : String) : Bool :=
  containsL needle.data hay.data

/-- Python `s.lower()` (ASCII case folding via `Char.toLower`). -/
def pyLower (s : String) : String :=
  ⟨s.data.map Char.toLower⟩

/-- Python `bool(s)` for a string: true exactly when nonempty. -/
def pyTruthy (s : String) : Bool :=
  !(s == "")

/-- Marker vocabulary of `analyze_github.is_incident_issue`. -/
def incident_markers : List String :=
  ["incident", "sev", "severity", "p0", "p1", "s1", "s2", "outage", "hotfix"]

/-- The `analyze_github.is_incident_issue` classifier, applied to each label
dict's `"name"` field (default `""`): it lowercases every label name and asks
whether any marker occurs in any lowered name as a substring. -/
def is_incident_issue (labels : List String) : Bool :=
  (labels.map pyLower).any (fun name => incident_markers.any (fun marker => pyIn marker name))

/-- Title keyword list of `h1_2025_github_report.detect_incident_issue`. -/
def h1_keywords : List String :=
  ["incident", "outage", "sev", "p1", "p0", "security incident"]

/-- Label list of `h1_2025_github_report.detect_incident_issue`, matched by
set membership (exact equality after lowercasing). -/
def h1_label_markers : List String :=
  ["incident", "outage", "sev1", "sev2", "p1", "p0"]

/-- The `h1_2025_github_report.detect_incident_issue` classifier. -/
def detect_incident_issue (title : String) (labels : List String) : Bool :=
  if h1_keywords.any (fun k => pyIn k (pyLower title)) then true
  else if h1_label_markers.any (fun k => (labels.map pyLower).contains k) then true
  else false

/-- C1: incident classification is a pure, deterministic, case-insensitive
function of the issue's title text and label names. `is_incident_issue`
matches the fixed markers as case-insensitive substrings of the label names
(not exact matches, as the non-exact example shows); the title-based
classifier `detect_incident_issue` matches its keywords as case-insensitive
substrings of the title. A label `"SEV1"` and a label `"sev1"` classify
identically, title `"Outage in prod"` classifies as an incident, and title
`"fix typo"` with no markers does not. -/
theorem incident_classification_case_insensitive :
    (∀ l₁ l₂ : List String, l₁.map pyLower = l₂.map pyLower →
        is_incident_issue l₁ = is_incident_issue l₂) ∧
    (∀ (t₁ t₂ : String) (l₁ l₂ : List String), pyLower t₁ = pyLower t₂ →
        l₁.map pyLower = l₂.map pyLower →
        detect_incident_issue t₁ l₁ = detect_incident_issue t₂ l₂) ∧
    (∀ labels : List String,
        is_incident_issue labels =
          labels.any (fun name => incident_markers.any (fun m => pyIn m (pyLower name)))) ∧
    (∀ (title : String) (labels : List String),
        h1_keywords.any (fun k => pyIn k (pyLower title)) = true →
        detect_incident_issue title labels = true) ∧
    is_incident_issue ["SEV1"] = is_incident_issue ["sev1"] ∧
    is_incident_issue ["SEV1"] = true ∧
    detect_incident_issue "Outage in prod" [] = true ∧
    detect_incident_issue "fix typo" [] = false ∧
    is_incident_issue ["fix typo"] = false ∧
    is_incident_issue ["production-incident-followup"] = true := by
  refine ⟨?_, ?_, ?_, ?_, by decide, by decide, by decide, by decide, by decide, by decide⟩
  · intro l₁ l₂ h
    simp only [is_incident_issue, h]
  · intro t₁ t₂ l₁ l₂ ht hl
    simp only [detect_incident_issue, ht, hl]
  · intro labels
    simp only [is_incident_issue, List.any_map, Function.comp_def]
  · intro title labels h
    simp only [detect_incident_issue, h, if_true]

/-- Witness for C1: concrete instantiations discharging the case-insensitivity
and title-substring hypotheses (the last one is the spec's own end-to-end
example "P0 outage in checkout"). -/
theorem incident_classification_case_insensitive_witness :
    is_incident_issue ["SEV1", "Docs"] = is_incident_issue ["sev1", "dOCS"] ∧
    detect_incident_issue "OUTAGE now" ["A"] = detect_incident_issue "outage NOW" ["a"] ∧
    detect_incident_issue "P0 outage in checkout" [] = true :=
  ⟨incident_classification_case_insensitive.1 ["SEV1", "Docs"] ["sev1", "dOCS"] (by decide),
   incident_classification_case_insensitive.2.1 "OUTAGE now" "outage NOW" ["A"] ["a"]
     (by decide) (by decide),
   incident_classification_case_insensitive.2.2.2.1 "P0 outage in checkout" [] (by decide)⟩

/-- Round-half-to-even to an integer (Python `round` tie behaviour). -/
def roundHalfEven (q : ℚ) : ℤ :=
  if q - ⌊q⌋ < 1/2 then ⌊q⌋
  else if 1/2 < q - ⌊q⌋ then ⌊q⌋ + 1
  else if ⌊q⌋ % 2 = 0 then ⌊q⌋ else ⌊q⌋ + 1

/-- Python `round(x, 2)`. -/
def round2 (q : ℚ) : ℚ :=
  (roundHalfEven (q * 100) : ℚ) / 100

/-- The `analyze_github.days_between` helper: `None` if either endpoint is
missing, else the delta in days rounded to 2 decimals (no clamping). -/
def days_between : Option ℤ → Option ℤ → Option ℚ
  | some s, some e => some (round2 (((e - s : ℤ) : ℚ) / 86400))
  | _, _ => none

/-- The `h1_2025_github_report.calc_mttr_hours` helper: delta in hours. -/
def calc_mttr_hours : Option ℤ → Option ℤ → Option ℚ
  | some c, some cl => some (round2 (((cl - c : ℤ) : ℚ) / 3600))
  | _, _ => none

/-- End timestamp of a PR, `iso_to_dt(pr["merged_at"]) or iso_to_dt(pr["closed_at"])`
in `analyze_github.analyze` (datetimes are always truthy in Python). -/
def pr_end_dt : Option ℤ → Option ℤ → Option ℤ
  | some m, _ => some m
  | none, cl => cl

/-- PR cycle time as derived in `analyze_github.analyze`: creation to
merge-or-close. -/
def cycle_time_days (created merged closed : Option ℤ) : Option ℚ :=
  days_between created (pr_end_dt merged closed)

/-- Shared aggregation shape of all four averages in the sources:
`round(sum(v)/len(v), 2) if v else None` where `v` keeps only the non-`None`
entries. -/
def avg_round2 (xs : List (Option ℚ)) : Option ℚ :=
  if (xs.filterMap id).length = 0 then none
  else some (round2 ((xs.filterMap id).sum / ((xs.filterMap id).length : ℚ)))

lemma roundHalfEven_nonneg {q : ℚ} (h : 0 ≤ q) : 0 ≤ roundHalfEven q := by
  have hn : (0 : ℤ) ≤ ⌊q⌋ := Int.floor_nonneg.mpr h
  unfold roundHalfEven
  split
  · exact hn
  · split
    · omega
    · split
      · exact hn
      · omega

lemma round2_nonneg {q : ℚ} (h : 0 ≤ q) : 0 ≤ round2 q := by
  have h1 : (0 : ℤ) ≤ roundHalfEven (q * 100) :=
    roundHalfEven_nonneg (by positivity)
  have h2 : (0 : ℚ) ≤ (roundHalfEven (q * 100) : ℚ) := by exact_mod_cast h1
  unfold round2
  positivity

lemma avg_round2_none_cons (xs : List (Option ℚ)) :
    avg_round2 (none :: xs) = avg_round2 xs := by
  simp [avg_round2]

lemma roundHalfEven_intCast (n : ℤ) : roundHalfEven (n : ℚ) = n := by
  unfold roundHalfEven
  rw [Int.floor_intCast]
  rw [if_pos (by norm_num)]

lemma round2_intCast (n : ℤ) : round2 (n : ℚ) = n := by
  unfold round2
  rw [show ((n : ℚ) * 100) = ((n * 100 : ℤ) : ℚ) by push_cast; ring,
    roundHalfEven_intCast]
  push_cast
  exact mul_div_cancel_right₀ _ (by norm_num)

/-- C2 counterexample: a close timestamp strictly before the creation
timestamp makes `days_between` return a negative time-to-close — the code
computes `(close − create)` with no clamp, contradicting the claimed
unconditional non-negativity. Here the issue closes one day before it was
created. -/
theorem time_to_close_negative_counterexample :
    days_between (some 86400) (some 0) = some (-1) ∧ ((-1 : ℚ) < 0) := by
  constructor
  · show some (round2 (((0 - 86400 : ℤ) : ℚ) / 86400)) = some (-1)
    have h : (((0 - 86400 : ℤ) : ℚ) / 86400) = ((-1 : ℤ) : ℚ) := by
      push_cast
      norm_num
    rw [h, round2_intCast]
    norm_num
  · norm_num

/-- C2 (amended): for every issue with both a creation and a close timestamp,
time-to-close is `(close − create)` in days rounded to two decimals, and it is
non-negative whenever close is not before creation (the code applies no clamp,
so an inverted pair of timestamps yields a negative value — see the
counterexample); an issue missing either timestamp has a null time-to-close,
and null entries contribute to neither side of the aggregated average. The
hour-based variant `calc_mttr_hours` nulls out missing timestamps the same
way. -/
theorem time_to_close_spec :
    (∀ c cl : ℤ, days_between (some c) (some cl) =
        some (round2 (((cl - c : ℤ) : ℚ) / 86400))) ∧
    (∀ c cl : ℤ, c ≤ cl → ∀ v : ℚ, days_between (some c) (some cl) = some v → 0 ≤ v) ∧
    (∀ e : Option ℤ, days_between none e = none) ∧
    (∀ s : Option ℤ, days_between s none = none) ∧
    (∀ xs : List (Option ℚ), avg_round2 (none :: xs) = avg_round2 xs) ∧
    (∀ c cl : ℤ, calc_mttr_hours (some c) (some cl) =
        some (round2 (((cl - c : ℤ) : ℚ) / 3600))) ∧
    (∀ e : Option ℤ, calc_mttr_hours none e = none) ∧
    (∀ s : Option ℤ, calc_mttr_hours s none = none) := by
  refine ⟨fun c cl => rfl, ?_, fun e => rfl, fun s => by cases s <;> rfl,
    avg_round2_none_cons, fun c cl => rfl, fun e => rfl, fun s => by cases s <;> rfl⟩
  intro c cl hle v hv
  have hv' : round2 (((cl - c : ℤ) : ℚ) / 86400) = v := Option.some.inj hv
  rw [← hv']
  apply round2_nonneg
  have hnum : (0 : ℚ) ≤ ((cl - c : ℤ) : ℚ) := by exact_mod_cast sub_nonneg.mpr hle
  exact div_nonneg hnum (by norm_num)

/-- Witness for C2: an issue created at epoch 0 and closed one day later has
time-to-close exactly 1 day, which is non-negative. -/
theorem time_to_close_spec_witness : (0 : ℚ) ≤ 1 :=
  time_to_close_spec.2.1 0 86400 (by norm_num) 1
    (by
      show some (round2 (((86400 - 0 : ℤ) : ℚ) / 86400)) = some 1
      have h : (((86400 - 0 : ℤ) : ℚ) / 86400) = ((1 : ℤ) : ℚ) := by
        push_cast
        norm_num
      rw [h, round2_intCast]
      norm_num)

/-- C8: the derived PR cycle time equals the end timestamp (merge time if
present, otherwise close time) minus the creation time, in days (rounded to
two decimals like every day-delta in the code); it is null exactly when the
creation timestamp is absent or both end timestamps are absent — never
computed as zero in those cases. -/
theorem cycle_time_days_spec :
    (∀ created merged closed : Option ℤ,
        cycle_time_days created merged closed = none ↔
          created = none ∨ (merged = none ∧ closed = none)) ∧
    (∀ (c m : ℤ) (closed : Option ℤ),
        cycle_time_days (some c) (some m) closed =
          some (round2 (((m - c : ℤ) : ℚ) / 86400))) ∧
    (∀ c cl : ℤ,
        cycle_time_days (some c) none (some cl) =
          some (round2 (((cl - c : ℤ) : ℚ) / 86400))) := by
  refine ⟨?_, fun c m closed => rfl, fun c cl => rfl⟩
  intro created merged closed
  rcases created with _ | c <;> rcases merged with _ | m <;> rcases closed with _ | cl <;>
    simp [cycle_time_days, pr_end_dt, days_between]

/-- The dict appended to `prs_detailed` in `analyze_github.analyze` (the
fields the claims concern; presentation-only string fields such as title,
state and URL are omitted). -/
structure PrRec where
  repo : String
  created_at : Option ℤ
  merged_at : Option ℤ
  closed_at : Option ℤ
  additions : ℕ
  deletions : ℕ
  changed_files : ℕ
  commits : Option ℕ
  merge_commit_sha : Option String
  cycle_time_days : Option ℚ
deriving DecidableEq

/-- The dict appended to `issues_detailed` / `issues_assigned` in
`analyze_github.analyze` (fields the claims concern). -/
structure IssueRec where
  repo : Option String
  created_at : Option ℤ
  closed_at : Option ℤ
  labels : List String
  time_to_close_days : Option ℚ
  is_incident : Bool
deriving DecidableEq

/-- Issue-record construction in `analyze_github.analyze`: the stored
time-to-close and incident flag are derived from the raw item. -/
def build_issue_rec (repo : Option String) (created closed : Option ℤ)
    (labels : List String) : IssueRec :=
  ⟨repo, created, closed, labels, days_between created closed, is_incident_issue labels⟩

/-- The `avg_cycle_time_days` aggregate of `analyze_github.analyze`. -/
def avg_cycle_time_days (prs : List PrRec) : Option ℚ :=
  avg_round2 (prs.map PrRec.cycle_time_days)

/-- The `avg_issue_close_time_days` aggregate (authored plus assigned issues). -/
def avg_issue_close_time_days (issues_detailed issues_assigned : List IssueRec) : Option ℚ :=
  avg_round2 ((issues_detailed ++ issues_assigned).map IssueRec.time_to_close_days)

/-- The incident-issue selection of `analyze_github.analyze`. -/
def incident_issues_of (issues_detailed issues_assigned : List IssueRec) : List IssueRec :=
  issues_detailed.filter IssueRec.is_incident ++ issues_assigned.filter IssueRec.is_incident

/-- The `avg_incident_mttr_days` aggregate of `analyze_github.analyze`. -/
def avg_incident_mttr_days (issues_detailed issues_assigned : List IssueRec) : Option ℚ :=
  avg_round2 ((incident_issues_of issues_detailed issues_assigned).map IssueRec.time_to_close_days)

/-- Issue record of `h1_2025_github_report` (fields the claims concern). -/
structure H1Issue where
  title : String
  labels : List String
  created_at : Option ℤ
  closed_at : Option ℤ
deriving DecidableEq

/-- The incident-issue selection of `h1_2025_github_report.aggregate`. -/
def h1_incident_issues (issues : List H1Issue) : List H1Issue :=
  issues.filter (fun i => detect_incident_issue i.title i.labels)

/-- The `incident_mttr_hours_avg` total of `h1_2025_github_report.aggregate`. -/
def incident_mttr_hours_avg (issues : List H1Issue) : Option ℚ :=
  avg_round2 ((h1_incident_issues issues).map (fun i => calc_mttr_hours i.created_at i.closed_at))

lemma filterMap_id_map_eq_nil {α β : Type} (f : α → Option β) :
    ∀ l : List α, (∀ x ∈ l, f x = none) → (l.map f).filterMap id = [] := by
  intro l
  induction l with
  | nil => intro _; rfl
  | cons a t ih =>
    intro h
    have ha : f a = none := h a (List.mem_cons_self a t)
    have ht : ∀ x ∈ t, f x = none := fun x hx => h x (List.mem_cons_of_mem a hx)
    simp [List.filterMap_cons, ha, ih ht]

/-- C6: every average metric is the arithmetic mean rounded to two decimal
places, computed only over records with a non-null delta — a record whose
delta is null changes neither the numerator nor the denominator of any of the
four averages — and deltas {2, null, 4} average to 3, not 2. -/
theorem averages_skip_null_deltas :
    (∀ (xs : List (Option ℚ)) (v : ℚ), avg_round2 xs = some v →
        v = round2 ((xs.filterMap id).sum / ((xs.filterMap id).length : ℚ))) ∧
    (∀ (p : PrRec) (prs : List PrRec), p.cycle_time_days = none →
        avg_cycle_time_days (p :: prs) = avg_cycle_time_days prs) ∧
    (∀ (i : IssueRec) (a b : List IssueRec), i.time_to_close_days = none →
        avg_issue_close_time_days (i :: a) b = avg_issue_close_time_days a b) ∧
    (∀ (i : IssueRec) (a b : List IssueRec), i.time_to_close_days = none →
        avg_incident_mttr_days (i :: a) b = avg_incident_mttr_days a b) ∧
    (∀ (i : H1Issue) (l : List H1Issue),
        calc_mttr_hours i.created_at i.closed_at = none →
        incident_mttr_hours_avg (i :: l) = incident_mttr_hours_avg l) ∧
    avg_round2 [some 2, none, some 4] = some 3 := by
  refine ⟨?_, ?_, ?_, ?_, ?_, ?_⟩
  · intro xs v hv
    unfold avg_round2 at hv
    split at hv
    · exact absurd hv (by simp)
    · exact (Option.some.inj hv).symm
  · intro p prs hp
    unfold avg_cycle_time_days
    rw [List.map_cons, hp, avg_round2_none_cons]
  · intro i a b hi
    unfold avg_issue_close_time_days
    rw [List.cons_append, List.map_cons, hi, avg_round2_none_cons]
  · intro i a b hi
    unfold avg_incident_mttr_days incident_issues_of
    rw [List.filter_cons]
    cases hb : i.is_incident
    · simp only [Bool.false_eq_true, if_false]
    · simp only [if_true]
      rw [List.cons_append, List.map_cons, hi, avg_round2_none_cons]
  · intro i l hi
    unfold incident_mttr_hours_avg h1_incident_issues
    rw [List.filter_cons]
    cases hb : detect_incident_issue i.title i.labels
    · simp only [Bool.false_eq_true, if_false]
    · simp only [if_true]
      rw [List.map_cons, hi, avg_round2_none_cons]
  · show avg_round2 [some 2, none, some 4] = some 3
    unfold avg_round2
    rw [if_neg (by simp)]
    have hsum : (([some 2, none, some 4] : List (Option ℚ)).filterMap id).sum = 6 := by
      simp
      norm_num
    have hlen : (([some 2, none, some 4] : List (Option ℚ)).filterMap id).length = 2 := by
      simp
    rw [hsum, hlen]
    have h6 : (6 : ℚ) / ((2 : ℕ) : ℚ) = ((3 : ℤ) : ℚ) := by
      push_cast
      norm_num
    rw [h6, round2_intCast]
    norm_num

/-- Witness for C6: adding a PR with a null cycle time to a singleton list
leaves the average unchanged, and the spec's {2, null, 4} issue example
averages to 3 via the general mean clause. -/
theorem averages_skip_null_deltas_witness :
    avg_cycle_time_days
        [⟨"o/r", none, none, none, 0, 0, 0, none, none, none⟩,
         ⟨"o/r2", some 0, some 86400, none, 1, 2, 3, none, none, some 1⟩] =
      avg_cycle_time_days [⟨"o/r2", some 0, some 86400, none, 1, 2, 3, none, none, some 1⟩] ∧
    (3 : ℚ) = round2 ((([some 2, none, some 4] : List (Option ℚ)).filterMap id).sum /
        ((([some 2, none, some 4] : List (Option ℚ)).filterMap id).length : ℚ)) :=
  ⟨averages_skip_null_deltas.2.1 ⟨"o/r", none, none, none, 0, 0, 0, none, none, none⟩
      [⟨"o/r2", some 0, some 86400, none, 1, 2, 3, none, none, some 1⟩] rfl,
   averages_skip_null_deltas.1 [some 2, none, some 4] 3
     averages_skip_null_deltas.2.2.2.2.2⟩

/-- C10: when no record carries a non-null delta — no PR with an end
timestamp, no closed issue, no closed incident issue — every average metric
(`avg_cycle_time_days`, `avg_issue_close_time_days`, `avg_incident_mttr_days`,
`incident_mttr_hours_avg`) is null rather than zero, and a non-null average
can only arise from a positive denominator, so no division by zero occurs. -/
theorem empty_averages_are_null :
    (∀ prs : List PrRec, (∀ p ∈ prs, p.cycle_time_days = none) →
        avg_cycle_time_days prs = none) ∧
    (∀ a b : List IssueRec, (∀ i ∈ a ++ b, i.time_to_close_days = none) →
        avg_issue_close_time_days a b = none ∧ avg_incident_mttr_days a b = none) ∧
    (∀ l : List H1Issue, (∀ i ∈ l, i.closed_at = none) →
        incident_mttr_hours_avg l = none) ∧
    (∀ (xs : List (Option ℚ)) (v : ℚ), avg_round2 xs = some v →
        0 < (xs.filterMap id).length) := by
  refine ⟨?_, ?_, ?_, ?_⟩
  · intro prs h
    unfold avg_cycle_time_days avg_round2
    rw [filterMap_id_map_eq_nil PrRec.cycle_time_days prs h]
    rfl
  · intro a b h
    constructor
    · unfold avg_issue_close_time_days avg_round2
      rw [filterMap_id_map_eq_nil IssueRec.time_to_close_days (a ++ b) h]
      rfl
    · unfold avg_incident_mttr_days avg_round2
      rw [filterMap_id_map_eq_nil IssueRec.time_to_close_days (incident_issues_of a b) ?_]
      · rfl
      · intro i hi
        apply h
        unfold incident_issues_of at hi
        rcases List.mem_append.mp hi with hia | hib
        · exact List.mem_append_left b (List.mem_of_mem_filter hia)
        · exact List.mem_append_right a (List.mem_of_mem_filter hib)
  · intro l h
    unfold incident_mttr_hours_avg avg_round2
    rw [filterMap_id_map_eq_nil _ (h1_incident_issues l) ?_]
    · rfl
    · intro i hi
      have : i.closed_at = none := h i (List.mem_of_mem_filter hi)
      rw [this]
      cases hc : i.created_at <;> rfl
  · intro xs v hv
    unfold avg_round2 at hv
    split at hv
    · exact absurd hv (by simp)
    · omega

/-- Witness for C10: with one merged-less PR, one open issue, and one open
incident-titled h1 issue, every average is null. -/
theorem empty_averages_are_null_witness :
    avg_cycle_time_days [⟨"o/r", none, none, none, 0, 0, 0, none, none, none⟩] = none ∧
    avg_issue_close_time_days [⟨some "o/r", some 0, none, ["bug"], none, false⟩] [] = none ∧
    avg_incident_mttr_days [⟨some "o/r", some 0, none, ["bug"], none, false⟩] [] = none ∧
    incident_mttr_hours_avg [⟨"outage in prod", [], some 0, none⟩] = none :=
  ⟨empty_averages_are_null.1 [⟨"o/r", none, none, none, 0, 0, 0, none, none, none⟩]
      (by decide),
   (empty_averages_are_null.2.1 [⟨some "o/r", some 0, none, ["bug"], none, false⟩] []
      (by decide)).1,
   (empty_averages_are_null.2.1 [⟨some "o/r", some 0, none, ["bug"], none, false⟩] []
      (by decide)).2,
   empty_averages_are_null.2.2.1 [⟨"outage in prod", [], some 0, none⟩] (by decide)⟩

/-- Loop state shared by the pagination models: the current page number, the
number of items returned so far, and whether the loop has exited. -/
structure SearchSt where
  page : ℕ
  total : ℕ
  halted : Bool
deriving DecidableEq

/-- Initial loop state (`page = 1`, nothing returned). -/
def search_init : SearchSt := ⟨1, 0, false⟩

/-- One iteration of the while-loop of `analyze_github.search_issues`:
break on an empty page, otherwise yield the page and break when the page is
undersized or the 1000-item search cap is reached; `pages p` is the item list
the endpoint returns for page `p`. -/
def search_issues_step {α : Type} (pages : ℕ → List α) (s : SearchSt) : SearchSt :=
  if s.halted then s
  else if (pages s.page).length = 0 then ⟨s.page, s.total, true⟩
  else if (pages s.page).length < 100 ∨ 1000 ≤ s.total + (pages s.page).length then
    ⟨s.page, s.total + (pages s.page).length, true⟩
  else ⟨s.page + 1, s.total + (pages s.page).length, false⟩

/-- One iteration of the loop of `h1_2025_github_report.search_github`:
extend with the page, then break when the page is undersized or `page >= 10`. -/
def search_github_step {α : Type} (pages : ℕ → List α) (s : SearchSt) : SearchSt :=
  if s.halted then s
  else if (pages s.page).length < 100 ∨ 10 ≤ s.page then
    ⟨s.page, s.total + (pages s.page).length, true⟩
  else ⟨s.page + 1, s.total + (pages s.page).length, false⟩

/-- One iteration of `h1_2025_github_report.paginate` (no cap of any kind):
`none` models a response whose data is not a list (the only other exit is an
undersized page). -/
def paginate_step_h1 {α : Type} (pages : ℕ → Option (List α)) (s : SearchSt) : SearchSt :=
  if s.halted then s
  else
    match pages s.page with
    | none => ⟨s.page, s.total, true⟩
    | some items =>
      if items.length < 100 then ⟨s.page, s.total + items.length, true⟩
      else ⟨s.page + 1, s.total + items.length, false⟩

/-- One iteration of `analyze_github.paginate` (link-header driven, no cap):
the Bool of `pages p` is whether the page-`p` response carries a `next` link. -/
def paginate_step_link {α : Type} (pages : ℕ → List α × Bool) (s : SearchSt) : SearchSt :=
  if s.halted then s
  else if (pages s.page).1.length = 0 then ⟨s.page, s.total, true⟩
  else if (pages s.page).2 = false then ⟨s.page, s.total + (pages s.page).1.length, true⟩
  else ⟨s.page + 1, s.total + (pages s.page).1.length, false⟩

/-- An endpoint that always returns a full 100-item page. -/
def const_full_pages : ℕ → Option (List ℕ) := fun _ => some (List.replicate 100 0)

set_option maxRecDepth 4000

/-- C3 counterexample: the generic `paginate` of `h1_2025_github_report` has
no safety cap — against an endpoint that always returns full 100-item pages,
after 11 iterations it has fetched 11 pages and accumulated 1100 items, past
the documented 1000-item / 10-page cap, and is still not halted (the same
holds for `analyze_github.paginate`, which only stops when the `next` link
disappears). -/
theorem paginate_no_cap_counterexample :
    (paginate_step_h1 const_full_pages)^[11] search_init = ⟨12, 1100, false⟩ := by
  decide

lemma search_issues_step_advance {α : Type} (pages : ℕ → List α) (p t : ℕ)
    (hlen : (pages p).length = 100) (hcap : t + 100 < 1000) :
    search_issues_step pages ⟨p, t, false⟩ = ⟨p + 1, t + 100, false⟩ := by
  have hc : ¬(100 < 100 ∨ 1000 ≤ t + 100) := by omega
  simp [search_issues_step, hlen, hc]
  omega

lemma search_issues_step_halt {α : Type} (pages : ℕ → List α) (p t : ℕ)
    (hlen : (pages p).length = 100) (hcap : 1000 ≤ t + 100) :
    search_issues_step pages ⟨p, t, false⟩ = ⟨p, t + 100, true⟩ := by
  have hc : (100 < 100 ∨ 1000 ≤ t + 100) := Or.inr hcap
  simp [search_issues_step, hlen, hc]
  omega

lemma search_issues_traj {α : Type} (pages : ℕ → List α)
    (hFull : ∀ p, (pages p).length = 100) :
    ∀ k, k ≤ 9 → (search_issues_step pages)^[k] search_init = ⟨k + 1, 100 * k, false⟩ := by
  intro k
  induction k with
  | zero => intro _; rfl
  | succ n ih =>
    intro h
    rw [Function.iterate_succ_apply', ih (by omega)]
    rw [search_issues_step_advance pages (n + 1) (100 * n) (hFull (n + 1)) (by omega)]
    have harith : 100 * n + 100 = 100 * (n + 1) := by ring
    rw [harith]

lemma search_issues_cap {α : Type} (pages : ℕ → List α)
    (hFull : ∀ p, (pages p).length = 100) :
    (search_issues_step pages)^[10] search_init = ⟨10, 1000, true⟩ := by
  have h10 : (search_issues_step pages)^[10] search_init =
      search_issues_step pages ((search_issues_step pages)^[9] search_init) :=
    Function.iterate_succ_apply' _ 9 _
  rw [h10, search_issues_traj pages hFull 9 (by omega)]
  rw [search_issues_step_halt pages 10 (100 * 9) (hFull 10) (by omega)]

lemma search_github_step_advance {α : Type} (pages : ℕ → List α) (p t : ℕ)
    (hlen : (pages p).length = 100) (hp : p < 10) :
    search_github_step pages ⟨p, t, false⟩ = ⟨p + 1, t + 100, false⟩ := by
  have hc : ¬(100 < 100 ∨ 10 ≤ p) := by omega
  simp [search_github_step, hlen, hc]
  omega

lemma search_github_step_halt {α : Type} (pages : ℕ → List α) (t : ℕ)
    (hlen : (pages 10).length = 100) :
    search_github_step pages ⟨10, t, false⟩ = ⟨10, t + 100, true⟩ := by
  have hc : (100 < 100 ∨ 10 ≤ 10) := Or.inr (by omega)
  simp [search_github_step, hlen, hc]

lemma search_github_traj {α : Type} (pages : ℕ → List α)
    (hFull : ∀ p, (pages p).length = 100) :
    ∀ k, k ≤ 9 → (search_github_step pages)^[k] search_init = ⟨k + 1, 100 * k, false⟩ := by
  intro k
  induction k with
  | zero => intro _; rfl
  | succ n ih =>
    intro h
    rw [Function.iterate_succ_apply', ih (by omega)]
    rw [search_github_step_advance pages (n + 1) (100 * n) (hFull (n + 1)) (by omega)]
    have harith : 100 * n + 100 = 100 * (n + 1) := by ring
    rw [harith]

lemma search_github_cap {α : Type} (pages : ℕ → List α)
    (hFull : ∀ p, (pages p).length = 100) :
    (search_github_step pages)^[10] search_init = ⟨10, 1000, true⟩ := by
  have h10 : (search_github_step pages)^[10] search_init =
      search_github_step pages ((search_github_step pages)^[9] search_init) :=
    Function.iterate_succ_apply' _ 9 _
  rw [h10, search_github_traj pages hFull 9 (by omega)]
  rw [search_github_step_halt pages (100 * 9) (hFull 10)]

/-- C3 (amended): the search-endpoint routines do stop at the documented cap —
against an endpoint that always returns full 100-item pages,
`analyze_github.search_issues` halts after 10 pages with exactly 1000 items
returned (and a halted state is a fixpoint of the loop), and
`h1_2025_github_report.search_github` halts at page 10 with 1000 items. The
generic `paginate` routines of both files carry no such cap (see the
counterexample): they halt only when the endpoint reports an undersized page,
a non-list response, or a missing `next` link, though each non-final iteration
strictly advances the page counter. -/
theorem pagination_caps_and_advancement :
    (∀ pages : ℕ → List ℕ, (∀ p, (pages p).length = 100) →
        (search_issues_step pages)^[10] search_init = ⟨10, 1000, true⟩ ∧
        search_issues_step pages ((search_issues_step pages)^[10] search_init) =
          (search_issues_step pages)^[10] search_init) ∧
    (∀ pages : ℕ → List ℕ, (∀ p, (pages p).length = 100) →
        (search_github_step pages)^[10] search_init = ⟨10, 1000, true⟩) ∧
    (∀ (pages : ℕ → Option (List ℕ)) (s : SearchSt), s.halted = false →
        (paginate_step_h1 pages s).halted = true ∨
          (paginate_step_h1 pages s).page = s.page + 1) ∧
    (∀ (pages : ℕ → Option (List ℕ)) (s : SearchSt) (items : List ℕ),
        s.halted = false → pages s.page = some items → items.length < 100 →
        (paginate_step_h1 pages s).halted = true) ∧
    (∀ (pages : ℕ → List ℕ × Bool) (s : SearchSt), s.halted = false →
        (paginate_step_link pages s).halted = true ∨
          (paginate_step_link pages s).page = s.page + 1) ∧
    (∀ (pages : ℕ → List ℕ × Bool) (s : SearchSt), s.halted = false →
        (pages s.page).2 = false → (paginate_step_link pages s).halted = true) := by
  refine ⟨?_, ?_, ?_, ?_, ?_, ?_⟩
  · intro pages hFull
    refine ⟨search_issues_cap pages hFull, ?_⟩
    rw [search_issues_cap pages hFull]
    simp [search_issues_step]
  · intro pages hFull
    exact search_github_cap pages hFull
  · intro pages s hs
    obtain ⟨p, t, hl⟩ := s
    cases hl with
    | false =>
      cases hp : pages p with
      | none => left; simp [paginate_step_h1, hp]
      | some items =>
        by_cases hlen : items.length < 100
        · left; simp [paginate_step_h1, hp, hlen]
        · right; simp [paginate_step_h1, hp, hlen]
    | true => simp at hs
  · intro pages s items hs hp hlen
    obtain ⟨p, t, hl⟩ := s
    cases hl with
    | false => simp only [paginate_step_h1] at hp ⊢; simp [hp, hlen]
    | true => simp at hs
  · intro pages s hs
    obtain ⟨p, t, hl⟩ := s
    cases hl with
    | false =>
      by_cases h0 : (pages p).1.length = 0
      · left; simp [paginate_step_link, h0]
      · by_cases hnext : (pages p).2 = false
        · left; simp [paginate_step_link, h0, hnext]
        · right; simp [paginate_step_link, h0, hnext]
    | true => simp at hs
  · intro pages s hs hnext
    obtain ⟨p, t, hl⟩ := s
    cases hl with
    | false =>
      by_cases h0 : (pages p).1.length = 0
      · simp [paginate_step_link, h0]
      · simp only at hnext
        simp [paginate_step_link, h0, hnext]
    | true => simp at hs

/-- Witness for C3: the constant full-page endpoint satisfies the full-page
hypothesis, so both capped search loops halt at 1000 items, and a non-halted
step of the uncapped paginator either halts or advances. -/
theorem pagination_caps_and_advancement_witness :
    (search_issues_step (fun _ => List.replicate 100 (0 : ℕ)))^[10] search_init =
        ⟨10, 1000, true⟩ ∧
    (search_github_step (fun _ => List.replicate 100 (0 : ℕ)))^[10] search_init =
        ⟨10, 1000, true⟩ ∧
    ((paginate_step_h1 const_full_pages search_init).halted = true ∨
      (paginate_step_h1 const_full_pages search_init).page = search_init.page + 1) :=
  ⟨(pagination_caps_and_advancement.1 (fun _ => List.replicate 100 0)
      (fun _ => by simp)).1,
   pagination_caps_and_advancement.2.1 (fun _ => List.replicate 100 0)
      (fun _ => by simp),
   pagination_caps_and_advancement.2.2.1 const_full_pages search_init rfl⟩

/-- A response of the remote endpoint as seen by the HTTP helpers: either
parsed JSON data, or an HTTP error with status code, body text, and the value
of the `X-RateLimit-Reset` header when present. -/
inductive GhResp (α : Type) where
  | ok : α → GhResp α
  | httpError : ℕ → String → Option ℤ → GhResp α
deriving DecidableEq

/-- The `h1_2025_github_report.github_get` helper. Inputs are the first
response, the response the endpoint would give to the single retry, and the
current time `int(time.time())`; the result pairs the slept duration (if a
sleep happened) with the outcome. Only a 403 whose body mentions "rate limit"
and which carries a reset header triggers the sleep-and-retry path; every
other failure (including a rate-limited 403 without the header) propagates. -/
def github_get (resp1 retry : GhResp ℕ) (now : ℤ) : Option ℤ × Except (ℕ × String) ℕ :=
  match resp1 with
  | .ok d => (none, .ok d)
  | .httpError code body reset =>
    if code = 403 ∧ pyIn "rate limit" (pyLower body) = true then
      match reset with
      | some r =>
        (some (min (max 0 (r - now + 2)) 60),
         match retry with
         | .ok d => .ok d
         | .httpError c2 b2 _ => .error (c2, b2))
      | none => (none, .error (code, body))
    else (none, .error (code, body))

/-- The `analyze_github.http_get` helper: a single request with no error
handling of any kind — any HTTP failure propagates, and no sleep happens. -/
def http_get (resp : GhResp ℕ) : Option ℤ × Except (ℕ × String) ℕ :=
  match resp with
  | .ok d => (none, .ok d)
  | .httpError c b _ => (none, .error (c, b))

/-- C4 counterexample: the claim's retry-once policy does not hold for every
rate-limited GET of the program — `analyze_github.http_get` propagates a
rate-limited 403 immediately with no sleep and no retry (it has no retry input
at all), and h1's `github_get` propagates without retrying when the reset
header is absent, even though the retry would have succeeded. -/
theorem rate_limit_no_retry_counterexample :
    http_get (.httpError 403 "API rate limit exceeded" (some 100)) =
      (none, .error (403, "API rate limit exceeded")) ∧
    github_get (.httpError 403 "API rate limit exceeded" none) (.ok 7) 0 =
      (none, .error (403, "API rate limit exceeded")) := by
  constructor
  · rfl
  · show (if (403 : ℕ) = 403 ∧ pyIn "rate limit" (pyLower "API rate limit exceeded") = true
        then ((none : Option ℤ), Except.error ((403 : ℕ), "API rate limit exceeded"))
        else (none, .error (403, "API rate limit exceeded"))) =
      (none, .error (403, "API rate limit exceeded"))
    split <;> rfl

/-- C4 (amended): for a GET rejected with status 403 whose body mentions the
rate limit and whose response carries the reset-time header, h1's `github_get`
sleeps `min(max(0, reset − now + 2), 60)` seconds — approximately until the
reset instant plus a 2-second slack, never longer than the 60-second clamp —
then retries exactly once, a failing retry propagating to the caller. When the
reset header is absent the failure propagates with no sleep and no retry, any
non-403 failure propagates untouched, and `analyze_github.http_get` performs
no rate-limit handling at all (it never sleeps and propagates every failure). -/
theorem github_get_rate_limit_backoff :
    (∀ (body : String) (r now : ℤ) (d : ℕ),
        pyIn "rate limit" (pyLower body) = true →
        github_get (.httpError 403 body (some r)) (.ok d) now =
          (some (min (max 0 (r - now + 2)) 60), .ok d)) ∧
    (∀ (body : String) (r now : ℤ) (c2 : ℕ) (b2 : String) (r2 : Option ℤ),
        pyIn "rate limit" (pyLower body) = true →
        github_get (.httpError 403 body (some r)) (.httpError c2 b2 r2) now =
          (some (min (max 0 (r - now + 2)) 60), .error (c2, b2))) ∧
    (∀ (body : String) (now : ℤ) (retry : GhResp ℕ),
        github_get (.httpError 403 body none) retry now = (none, .error (403, body))) ∧
    (∀ (code : ℕ) (body : String) (reset : Option ℤ) (now : ℤ) (retry : GhResp ℕ),
        code ≠ 403 →
        github_get (.httpError code body reset) retry now = (none, .error (code, body))) ∧
    (∀ resp : GhResp ℕ, (http_get resp).1 = none) ∧
    (∀ (c : ℕ) (b : String) (rs : Option ℤ),
        http_get (.httpError c b rs) = (none, .error (c, b))) := by
  refine ⟨?_, ?_, ?_, ?_, ?_, fun c b rs => rfl⟩
  · intro body r now d hbody
    simp only [github_get]
    rw [if_pos ⟨trivial, hbody⟩]
  · intro body r now c2 b2 r2 hbody
    simp only [github_get]
    rw [if_pos ⟨trivial, hbody⟩]
  · intro body now retry
    simp only [github_get]
    split <;> rfl
  · intro code body reset now retry hcode
    simp only [github_get]
    rw [if_neg (fun hand => hcode hand.1)]
  · intro resp
    cases resp <;> rfl

/-- Witness for C4: a reset header 5 seconds in the future makes the client
sleep 7 seconds (5 plus the 2-second slack) and succeed on retry, and a reset
a million seconds away is clamped to the 60-second maximum. -/
theorem github_get_rate_limit_backoff_witness :
    github_get (.httpError 403 "rate limit" (some 7)) (.ok 1) 2 = (some 7, .ok 1) ∧
    github_get (.httpError 403 "rate limit" (some 1000000)) (.ok 1) 0 = (some 60, .ok 1) := by
  constructor
  · have h := github_get_rate_limit_backoff.1 "rate limit" 7 2 1 (by decide)
    rw [h]
    norm_num
  · have h := github_get_rate_limit_backoff.1 "rate limit" 1000000 0 1 (by decide)
    rw [h]
    norm_num

/-- A raw commit search item as consumed by the dedup loop of
`analyze_github.analyze`: its sha (possibly missing) and the resolved
repository name (possibly unresolvable). -/
structure CommitItem where
  sha : Option String
  repo : Option String
deriving DecidableEq

/-- The dedup loop of `analyze_github.analyze` over the concatenated commit
search results: `if not sha or sha in seen_shas: continue; seen_shas.add(sha)`
(a missing or empty sha is Python-falsy and skipped). -/
def dedupe_commits : List CommitItem → List String → List CommitItem
  | [], _ => []
  | it :: rest, seen =>
    match it.sha with
    | none => dedupe_commits rest seen
    | some s =>
      if s = "" ∨ s ∈ seen then dedupe_commits rest seen
      else it :: dedupe_commits rest (s :: seen)

/-- Commit detail payload (`stats` block and `files` count) returned by the
per-commit detail endpoint. -/
structure CommitDetail where
  additions : ℕ
  deletions : ℕ
  total : Option ℕ
  files_count : ℕ
deriving DecidableEq

/-- The commit record appended to `commits_detailed` (fields the claims
concern). -/
structure CommitEnriched where
  repo : Option String
  sha : Option String
  additions : ℕ
  deletions : ℕ
  total_changes : ℕ
  files_changed : ℕ
deriving DecidableEq

/-- Python `a or b` over an optional count (`stats.get("total") or (additions
+ deletions)`): `0` and missing are both falsy. -/
def py_or_nat : Option ℕ → ℕ → ℕ
  | some t, d => if t = 0 then d else t
  | none, d => d

/-- Per-commit enrichment in `analyze_github.analyze`: a failing detail fetch
leaves the stats dict empty, so every count defaults to zero; the record keeps
the item's sha and repo and is appended either way. -/
def process_commit_item (it : CommitItem) (fetch : Except String CommitDetail) :
    CommitEnriched :=
  match fetch with
  | .ok d => ⟨it.repo, it.sha, d.additions, d.deletions,
      py_or_nat d.total (d.additions + d.deletions), d.files_count⟩
  | .error _ => ⟨it.repo, it.sha, 0, 0, 0, 0⟩

/-- The commit pipeline of `analyze_github.analyze`: author-query results and
committer-query results are concatenated, deduplicated by sha, and only then
enriched (one detail fetch per retained item, supplied by the oracle). -/
def commits_detailed (oracle : CommitItem → Except String CommitDetail)
    (author_items committer_items : List CommitItem) : List CommitEnriched :=
  (dedupe_commits (author_items ++ committer_items) []).map
    (fun it => process_commit_item it (oracle it))

lemma process_commit_item_sha (it : CommitItem) (fetch : Except String CommitDetail) :
    (process_commit_item it fetch).sha = it.sha := by
  cases fetch <;> rfl

lemma dedupe_commits_shas (l : List CommitItem) :
    ∀ seen : List String,
      ((dedupe_commits l seen).filterMap CommitItem.sha).Nodup ∧
      ∀ s ∈ (dedupe_commits l seen).filterMap CommitItem.sha, s ∉ seen := by
  induction l with
  | nil =>
    intro seen
    exact ⟨List.nodup_nil, by intro s hs; simp [dedupe_commits] at hs⟩
  | cons it rest ih =>
    intro seen
    cases hsha : it.sha with
    | none =>
      have hred : dedupe_commits (it :: rest) seen = dedupe_commits rest seen := by
        simp [dedupe_commits, hsha]
      rw [hred]
      exact ih seen
    | some s =>
      by_cases hskip : s = "" ∨ s ∈ seen
      · have hred : dedupe_commits (it :: rest) seen = dedupe_commits rest seen := by
          simp [dedupe_commits, hsha, hskip]
        rw [hred]
        exact ih seen
      · have hred : dedupe_commits (it :: rest) seen =
            it :: dedupe_commits rest (s :: seen) := by
          simp [dedupe_commits, hsha, hskip]
        have h2 := ih (s :: seen)
        rw [hred, List.filterMap_cons, hsha]
        push_neg at hskip
        refine ⟨List.nodup_cons.mpr ⟨?_, h2.1⟩, ?_⟩
        · intro hmem
          exact (h2.2 s hmem) (List.mem_cons_self s seen)
        · intro x hx
          rcases List.mem_cons.mp hx with hxs | hxt
          · rw [hxs]; exact hskip.2
          · intro hxseen
            exact (h2.2 x hxt) (List.mem_cons_of_mem s hxseen)

/-- C5: in the merged commit collection of `analyze_github.analyze` each
commit hash appears at most once; the deduplication is performed before the
per-item detail enrichment (the enrichment maps over exactly the deduplicated
list, so there is one detail fetch per retained item), and since enrichment
preserves hashes the enriched collection's hashes are pairwise distinct as
well. -/
theorem commit_dedup_by_sha :
    (∀ a b : List CommitItem,
        ((dedupe_commits (a ++ b) []).filterMap CommitItem.sha).Nodup) ∧
    (∀ (oracle : CommitItem → Except String CommitDetail) (a b : List CommitItem),
        commits_detailed oracle a b =
          (dedupe_commits (a ++ b) []).map (fun it => process_commit_item it (oracle it))) ∧
    (∀ (oracle : CommitItem → Except String CommitDetail) (a b : List CommitItem),
        ((commits_detailed oracle a b).filterMap CommitEnriched.sha).Nodup) := by
  refine ⟨?_, fun oracle a b => rfl, ?_⟩
  · intro a b
    exact (dedupe_commits_shas (a ++ b) []).1
  · intro oracle a b
    unfold commits_detailed
    have hmap : ((dedupe_commits (a ++ b) []).map
          (fun it => process_commit_item it (oracle it))).filterMap CommitEnriched.sha =
        (dedupe_commits (a ++ b) []).filterMap CommitItem.sha := by
      rw [List.filterMap_map]
      congr 1
      funext it
      simp [Function.comp_def, process_commit_item_sha]
    rw [hmap]
    exact (dedupe_commits_shas (a ++ b) []).1

/-- A raw PR search item (fields used by the fallback path of
`analyze_github.analyze`). -/
structure PrSearchItem where
  number : ℕ
  created_at : Option ℤ
  closed_at : Option ℤ
deriving DecidableEq

/-- The intermediate PR dict in `analyze_github.analyze`: either the payload
of `get_pr_details`, or the fallback dict built when that fetch raises. -/
structure PrFetched where
  created_at : Option ℤ
  merged_at : Option ℤ
  closed_at : Option ℤ
  additions : ℕ
  deletions : ℕ
  changed_files : ℕ
  commits : Option ℕ
  merge_commit_sha : Option String
  fetch_error : Option String
deriving DecidableEq

/-- The fallback dict of `analyze_github.analyze` when `get_pr_details`
raises: timestamps from the search item, `merged_at = None`, zero line and
file counts, and the `_fetch_error` marker. -/
def pr_fallback (item : PrSearchItem) (e : String) : PrFetched :=
  ⟨item.created_at, none, item.closed_at, 0, 0, 0, none, none, some e⟩

/-- The record appended to `prs_detailed`: note its fixed key set does not
copy `_fetch_error` from the intermediate dict. -/
def build_pr_rec (repo : String) (pr : PrFetched) : PrRec :=
  ⟨repo, pr.created_at, pr.merged_at, pr.closed_at, pr.additions, pr.deletions,
   pr.changed_files, pr.commits, pr.merge_commit_sha,
   cycle_time_days pr.created_at pr.merged_at pr.closed_at⟩

/-- Per-item PR processing of `analyze_github.analyze`: a failing detail
fetch (the `Except.error` case of the oracle's answer) falls back to
`pr_fallback` instead of aborting, and a record is appended either way. -/
def process_pr_item (repo : String) (item : PrSearchItem)
    (fetch : Except String PrFetched) : PrRec :=
  build_pr_rec repo
    (match fetch with
     | .ok pr => pr
     | .error e => pr_fallback item e)

/-- The PR loop of `analyze_github.analyze` over the rows that passed the
repo/number guard, each paired with its detail-fetch outcome. -/
def prs_detailed_of (rows : List (String × PrSearchItem × Except String PrFetched)) :
    List PrRec :=
  rows.map (fun r => process_pr_item r.1 r.2.1 r.2.2)

/-- A PR record of h1's `fetch_prs` (fields the claims concern). -/
structure H1PrData where
  number : ℕ
  additions : Option ℕ
  deletions : Option ℕ
deriving DecidableEq

/-- h1's `fetch_prs` detail loop: an item without a `pull_request.url` is
skipped (`none` row), and a failing detail fetch skips the item
(`except Exception: continue`) instead of producing a partial record. -/
def fetch_prs_h1 (rows : List (Option (Except String H1PrData))) : List H1PrData :=
  rows.filterMap (fun r =>
    match r with
    | none => none
    | some (.error _) => none
    | some (.ok pr) => some pr)

/-- C7 counterexample: in h1's `fetch_prs` a PR item whose detail fetch fails
is dropped from the result — with a single failing item the output is empty
instead of containing a partial record — contradicting the claim that no item
is dropped (later items are still processed, as the second conjunct shows). -/
theorem pr_fetch_failure_drop_counterexample :
    fetch_prs_h1 [some (.error "boom")] = [] ∧
    fetch_prs_h1 [some (.error "boom"), some (.ok ⟨5, some 1, some 2⟩)] =
      [⟨5, some 1, some 2⟩] := by
  exact ⟨rfl, rfl⟩

/-- C7 (amended): a failing secondary detail fetch never aborts the pipeline.
In `analyze_github.analyze` the item is kept: the failing PR fetch degrades to
the fallback dict carrying zero line/file counts, no merge data and the
`_fetch_error` marker (the marker lives on the intermediate dict; the emitted
record's fixed key set carries the default values), one record is emitted per
row regardless of fetch outcomes, and a failing commit detail fetch yields a
record with zeroed stats. In h1's `fetch_prs`, by contrast, the failing item
is skipped and the loop continues with the remaining items. -/
theorem pr_fetch_failure_degrades :
    (∀ (item : PrSearchItem) (e : String),
        (pr_fallback item e).fetch_error = some e ∧
        (pr_fallback item e).additions = 0 ∧
        (pr_fallback item e).deletions = 0 ∧
        (pr_fallback item e).changed_files = 0 ∧
        (pr_fallback item e).merged_at = none ∧
        (pr_fallback item e).commits = none ∧
        (pr_fallback item e).merge_commit_sha = none) ∧
    (∀ (repo : String) (item : PrSearchItem) (e : String),
        process_pr_item repo item (.error e) = build_pr_rec repo (pr_fallback item e)) ∧
    (∀ rows, (prs_detailed_of rows).length = rows.length) ∧
    (∀ (it : CommitItem) (e : String),
        process_commit_item it (.error e) = ⟨it.repo, it.sha, 0, 0, 0, 0⟩) ∧
    (∀ (e : String) (rest : List (Option (Except String H1PrData))),
        fetch_prs_h1 (some (.error e) :: rest) = fetch_prs_h1 rest) ∧
    (∀ (pr : H1PrData) (rest : List (Option (Except String H1PrData))),
        fetch_prs_h1 (some (.ok pr) :: rest) = pr :: fetch_prs_h1 rest) := by
  refine ⟨fun item e => ⟨rfl, rfl, rfl, rfl, rfl, rfl, rfl⟩, fun repo item e => rfl,
    ?_, fun it e => rfl, fun e rest => rfl, fun pr rest => rfl⟩
  intro rows
  unfold prs_detailed_of
  exact List.length_map rows _

/-- The repository column collected at line `repos_contributed = sorted({...})`
of `analyze_github.analyze`: the `repo` of every enriched PR record (always a
string there) and of every enriched commit record (possibly `None`). -/
def repo_values (prs : List PrRec) (commits : List CommitEnriched) : List (Option String) :=
  prs.map (fun p => some p.repo) ++ commits.map CommitEnriched.repo

/-- `sorted({r for r in ([p["repo"] for p in prs_detailed] + [c["repo"] for c
in commits_detailed]) if r})`: the Python-truthiness filter drops both `None`
and the empty string before deduplicating and sorting. -/
def repos_contributed (prs : List PrRec) (commits : List CommitEnriched) : List String :=
  List.insertionSort (fun a b => a ≤ b)
    (((repo_values prs commits).filterMap id).filter pyTruthy).dedup

/-- Modelled from the claim's words, for comparison with the code: the sorted
deduplication of the distinct non-null repository identifiers (keeping, unlike
the code, an empty-string identifier). -/
def repos_claimed (prs : List PrRec) (commits : List CommitEnriched) : List String :=
  List.insertionSort (fun a b => a ≤ b) ((repo_values prs commits).filterMap id).dedup

/-- C9 counterexample: a commit record whose repository identifier is the
empty string (non-null) is dropped by the code's truthiness filter, so the
roll-up differs from the claimed set of distinct non-null identifiers at this
input. -/
theorem repos_contributed_counterexample :
    repos_contributed [] [⟨some "", none, 0, 0, 0, 0⟩] = [] ∧
    repos_claimed [] [⟨some "", none, 0, 0, 0, 0⟩] = [""] := by
  exact ⟨rfl, rfl⟩

/-- C9 (amended): the repos-contributed roll-up equals the set of distinct
truthy repository identifiers (non-null and non-empty, by Python truthiness)
appearing in the enriched PR and commit records: it contains no duplicates,
its members are exactly those identifiers, and its value is independent of the
order in which the PRs and commits were collected. -/
theorem repos_contributed_spec :
    (∀ prs commits, (repos_contributed prs commits).Nodup) ∧
    (∀ prs commits (r : String),
        r ∈ repos_contributed prs commits ↔
          (some r ∈ repo_values prs commits ∧ r ≠ "")) ∧
    (∀ prs₁ commits₁ prs₂ commits₂,
        (repo_values prs₁ commits₁).Perm (repo_values prs₂ commits₂) →
        repos_contributed prs₁ commits₁ = repos_contributed prs₂ commits₂) := by
  refine ⟨?_, ?_, ?_⟩
  · intro prs commits
    unfold repos_contributed
    exact (List.perm_insertionSort _ _).symm.nodup
      (List.nodup_dedup (((repo_values prs commits).filterMap id).filter pyTruthy))
  · intro prs commits r
    unfold repos_contributed
    rw [(List.perm_insertionSort (fun a b => a ≤ b) _).mem_iff, List.mem_dedup,
      List.mem_filter]
    simp [pyTruthy, and_comm]
  · intro prs₁ commits₁ prs₂ commits₂ h
    unfold repos_contributed
    have hd : ((((repo_values prs₁ commits₁).filterMap id).filter pyTruthy).dedup).Perm
        ((((repo_values prs₂ commits₂).filterMap id).filter pyTruthy).dedup) :=
      ((h.filterMap id).filter pyTruthy).dedup
    exact List.eq_of_perm_of_sorted
      ((List.perm_insertionSort _ _).trans (hd.trans (List.perm_insertionSort _ _).symm))
      (List.sorted_insertionSort _ _) (List.sorted_insertionSort _ _)

/-- Witness for C9: collecting the same two repositories in the opposite
order (one via a PR, one via a commit, versus both via commits, swapped)
yields the same roll-up. -/
theorem repos_contributed_spec_witness :
    repos_contributed [⟨"r1", none, none, none, 0, 0, 0, none, none, none⟩]
        [⟨some "r0", none, 0, 0, 0, 0⟩] =
      repos_contributed []
        [⟨some "r0", none, 0, 0, 0, 0⟩, ⟨some "r1", none, 0, 0, 0, 0⟩] :=
  repos_contributed_spec.2.2 _ _ _ _ (List.Perm.swap (some "r0") (some "r1") [])
